import Mathlib

/-!
Shallow embedding of the consent-gated retrieval and erasure subsystem:
the relational rows (app/models/*), the SQL query semantics
(app/repositories/queries.py), the repository functions
(app/repositories/*_repo.py), the transaction wrapper (app/db/session.py,
`get_db`), the consent service (app/services/consent_service.py) and the
router-level mode selection (app/routers/search.py).

Vector distances are abstracted as a caller-supplied metric `dist`
(the pgvector `<=>` operator); every query-level theorem is proved for
an arbitrary metric, since the SQL's filter/order/limit structure does
not depend on it.  Machine floats become `Rat`, timestamps become `Nat`.
-/

namespace App

/-- Query vectors and stored embedding vectors (Python `list[float]`). -/
abbrev Vec := List Rat

/-- Row of table `customers` (app/models/customer.py). -/
structure Customer where
  id : String
  external_id : String
  display_name : String
  notes : Option String
  consent_for_biometrics : Bool
  created_at : Nat
  deriving Repr, DecidableEq

/-- Row of table `employees` (app/models/employee.py). -/
structure Employee where
  id : String
  external_id : String
  display_name : String
  notes : Option String
  deriving Repr, DecidableEq

/-- Row of table `sessions` (app/models/session.py); `customer_id` is the
nullable FK with `ondelete="SET NULL"`, `metadata` is kept opaque. -/
structure Session where
  id : String
  employee_id : String
  customer_id : Option String
  session_key : String
  metadata : Option String
  created_at : Nat
  deriving Repr, DecidableEq

/-- Row of table `transcript_chunks` (app/models/transcript.py);
`session_id` has `ondelete="CASCADE"`. -/
structure TranscriptChunk where
  id : String
  session_id : String
  chunk_index : Nat
  content : String
  deriving Repr, DecidableEq

/-- Row of table `customer_face_embeddings`
(app/models/customer_face_embedding.py); `customer_id` has
`ondelete="CASCADE"`. -/
structure CustomerFaceEmbedding where
  id : String
  customer_id : String
  source_session_id : Option String
  model_name : String
  idempotency_hash : Option String
  embedding : Vec
  created_at : Nat
  deriving Repr, DecidableEq

/-- Row of table `customer_memory` (app/models/customer_memory.py);
`customer_id` has `ondelete="CASCADE"`. -/
structure CustomerMemory where
  id : String
  customer_id : String
  nugget : String
  model_name : String
  source_session_id : Option String
  idempotency_hash : Option String
  embedding : Vec
  created_at : Nat
  deriving Repr, DecidableEq

/-- Row of table `customer_preferences` (app/models/customer_preference.py);
`customer_id` has `ondelete="CASCADE"`. -/
structure CustomerPreference where
  id : String
  customer_id : String
  kind : String
  category : Option String
  value : String
  source_session_id : Option String
  deriving Repr, DecidableEq

/-- The relational store: one list of rows per table of the schema. -/
structure DB where
  customers : List Customer
  employees : List Employee
  sessions : List Session
  transcript_chunks : List TranscriptChunk
  customer_face_embeddings : List CustomerFaceEmbedding
  customer_memory : List CustomerMemory
  customer_preferences : List CustomerPreference
  deriving Repr, DecidableEq

/-- Configured face embedding dimension (app/core/config.py,
`face_embedding_dim`). -/
def face_embedding_dim : Nat := 512

/-- Configured text embedding dimension (app/core/config.py,
`text_embedding_dim`). -/
def text_embedding_dim : Nat := 1536

/-! ### ORDER BY: a stable insertion sort over a boolean comparator -/

/-- Insert an element into a sorted list, keeping it sorted under `le`. -/
def insertLe (le : α → α → Bool) (a : α) : List α → List α
  | [] => [a]
  | b :: t => if le a b then a :: b :: t else b :: insertLe le a t

/-- Stable insertion sort, modelling SQL `ORDER BY` with comparator `le`. -/
def sortLe (le : α → α → Bool) : List α → List α
  | [] => []
  | a :: t => insertLe le a (sortLe le t)

theorem mem_insertLe (le : α → α → Bool) (a x : α) (l : List α) :
    x ∈ insertLe le a l ↔ x = a ∨ x ∈ l := by
  induction l with
  | nil => simp [insertLe]
  | cons b t ih =>
    simp only [insertLe]
    by_cases h : le a b = true
    · simp [h]
    · simp only [if_neg h, List.mem_cons, ih]
      tauto

theorem mem_sortLe (le : α → α → Bool) (x : α) (l : List α) :
    x ∈ sortLe le l ↔ x ∈ l := by
  induction l with
  | nil => simp [sortLe]
  | cons a t ih => simp [sortLe, mem_insertLe, ih]

theorem pairwise_insertLe (le : α → α → Bool)
    (total : ∀ a b, le a b = true ∨ le b a = true)
    (tr : ∀ a b c, le a b = true → le b c = true → le a c = true)
    (a : α) (l : List α)
    (h : l.Pairwise (fun x y => le x y = true)) :
    (insertLe le a l).Pairwise (fun x y => le x y = true) := by
  induction l with
  | nil => simp [insertLe]
  | cons b t ih =>
    simp only [insertLe]
    rcases List.pairwise_cons.mp h with ⟨hb, ht⟩
    by_cases hab : le a b = true
    · simp only [if_pos hab]
      refine List.pairwise_cons.mpr ⟨?_, h⟩
      intro y hy
      rcases List.mem_cons.mp hy with rfl | hyt
      · exact hab
      · exact tr a b y hab (hb y hyt)
    · simp only [if_neg hab]
      refine List.pairwise_cons.mpr ⟨?_, ih ht⟩
      intro y hy
      rcases (mem_insertLe le a y t).mp hy with hya | hyt
      · rw [hya]
        rcases total a b with h1 | h2
        · exact absurd h1 hab
        · exact h2
      · exact hb y hyt

theorem pairwise_sortLe (le : α → α → Bool)
    (total : ∀ a b, le a b = true ∨ le b a = true)
    (tr : ∀ a b c, le a b = true → le b c = true → le a c = true)
    (l : List α) :
    (sortLe le l).Pairwise (fun x y => le x y = true) := by
  induction l with
  | nil => simp [sortLe]
  | cons a t ih => exact pairwise_insertLe le total tr a (sortLe le t) ih

theorem length_insertLe (le : α → α → Bool) (a : α) (l : List α) :
    (insertLe le a l).length = l.length + 1 := by
  induction l with
  | nil => simp [insertLe]
  | cons b t ih =>
    simp only [insertLe]
    by_cases h : le a b = true
    · simp [h]
    · simp [if_neg h, ih]

theorem length_sortLe (le : α → α → Bool) (l : List α) :
    (sortLe le l).length = l.length := by
  induction l with
  | nil => rfl
  | cons a t ih => simp [sortLe, length_insertLe, ih]

/-! ### SQL query semantics (app/repositories/queries.py)

Every repository call executes a fixed list of parameterized statements;
we record which statements ran as a list of tags, so that "rejected
before any query executes" is expressible. -/

/-- One tag per SQL statement constant in app/repositories/queries.py. -/
inductive QueryTag where
  | faceNearestNeighbor
  | memoryNearestNeighbor
  | memoryNearestNeighborGlobal
  | customerContext
  | optOutNullSessions
  | optOutDeleteCustomer
  deriving Repr, DecidableEq

/-- Result row of `SQL_FACE_NEAREST_NEIGHBOR`. -/
structure FaceSearchRow where
  customer_id : String
  external_id : String
  display_name : String
  embedding_id : String
  distance : Rat
  deriving Repr, DecidableEq

/-- Result row of the two memory nearest-neighbor statements. -/
structure MemorySearchRow where
  id : String
  customer_id : String
  nugget : String
  model_name : String
  source_session_id : Option String
  created_at : Nat
  distance : Rat
  deriving Repr, DecidableEq

/-- Ascending-distance comparator used by both `ORDER BY ... <=> ...`
clauses. -/
def distLe (a b : FaceSearchRow) : Bool := decide (a.distance ≤ b.distance)

/-- Ascending-distance comparator for memory rows. -/
def memDistLe (a b : MemorySearchRow) : Bool := decide (a.distance ≤ b.distance)

/-- Semantics of `SQL_FACE_NEAREST_NEIGHBOR` for an arbitrary metric
`dist`: join `customer_face_embeddings` with `customers` on
`c.id = f.customer_id`, keep only `consent_for_biometrics = true`,
order by distance ascending, limit `k`. -/
def SQL_FACE_NEAREST_NEIGHBOR (dist : Vec → Vec → Rat) (db : DB)
    (q : Vec) (k : Nat) : List FaceSearchRow :=
  let joined := db.customer_face_embeddings.flatMap fun f =>
    (db.customers.filter fun c => c.id == f.customer_id).map fun c => (f, c)
  let gated := joined.filter fun fc => fc.2.consent_for_biometrics
  let rows := gated.map fun fc =>
    { customer_id := fc.2.id
      external_id := fc.2.external_id
      display_name := fc.2.display_name
      embedding_id := fc.1.id
      distance := dist fc.1.embedding q : FaceSearchRow }
  (sortLe distLe rows).take k

/-- Shared SELECT-list of the two memory statements. -/
def memoryRowOf (dist : Vec → Vec → Rat) (q : Vec) (m : CustomerMemory) :
    MemorySearchRow :=
  { id := m.id
    customer_id := m.customer_id
    nugget := m.nugget
    model_name := m.model_name
    source_session_id := m.source_session_id
    created_at := m.created_at
    distance := dist m.embedding q }

/-- Semantics of `SQL_MEMORY_NEAREST_NEIGHBOR`: rows of `customer_memory`
with `m.customer_id = :customer_id`, ordered by ascending distance,
limit `k`.  No join with `customers`, hence no consent filter. -/
def SQL_MEMORY_NEAREST_NEIGHBOR (dist : Vec → Vec → Rat) (db : DB)
    (customer_id : String) (q : Vec) (k : Nat) : List MemorySearchRow :=
  let rows := (db.customer_memory.filter fun m =>
    m.customer_id == customer_id).map (memoryRowOf dist q)
  (sortLe memDistLe rows).take k

/-- Semantics of `SQL_MEMORY_NEAREST_NEIGHBOR_GLOBAL`: same SELECT over
all of `customer_memory`, no customer filter. -/
def SQL_MEMORY_NEAREST_NEIGHBOR_GLOBAL (dist : Vec → Vec → Rat) (db : DB)
    (q : Vec) (k : Nat) : List MemorySearchRow :=
  let rows := db.customer_memory.map (memoryRowOf dist q)
  (sortLe memDistLe rows).take k

/-- Descending `created_at` comparator for `ORDER BY s.created_at DESC`. -/
def createdDescLe (a b : Session) : Bool := decide (b.created_at ≤ a.created_at)

/-- Semantics of `SQL_CUSTOMER_CONTEXT`: the single result row, as the
triple (profile-or-NULL, preferences, recent sessions).  The profile CTE
selects `customers WHERE id = :customer_id` (primary key, so at most one
row); preferences are all rows with this `customer_id`; recent sessions
are the sessions referencing this customer, by descending `created_at`,
limited to `:sessions_limit`. -/
def SQL_CUSTOMER_CONTEXT (db : DB) (customer_id : String)
    (sessions_limit : Nat) :
    Option Customer × List CustomerPreference × List Session :=
  ( db.customers.find? fun c => c.id == customer_id
  , db.customer_preferences.filter fun p => p.customer_id == customer_id
  , (sortLe createdDescLe
      (db.sessions.filter fun s => s.customer_id == some customer_id)).take
      sessions_limit )

/-- Semantics of `SQL_OPT_OUT_NULL_SESSIONS`:
`UPDATE sessions SET customer_id = NULL WHERE customer_id = :customer_id`. -/
def SQL_OPT_OUT_NULL_SESSIONS (db : DB) (customer_id : String) : DB :=
  { db with sessions := db.sessions.map fun s =>
      if s.customer_id == some customer_id then { s with customer_id := none }
      else s }

/-- Semantics of `SQL_OPT_OUT_DELETE_CUSTOMER`:
`DELETE FROM customers WHERE id = :customer_id`, together with the
foreign-key actions declared in the models: `ON DELETE CASCADE` on
`customer_face_embeddings.customer_id`, `customer_memory.customer_id`
and `customer_preferences.customer_id`, `ON DELETE SET NULL` on
`sessions.customer_id`. -/
def SQL_OPT_OUT_DELETE_CUSTOMER (db : DB) (customer_id : String) : DB :=
  { db with
    customers := db.customers.filter fun c => !(c.id == customer_id)
    customer_face_embeddings :=
      db.customer_face_embeddings.filter fun f => !(f.customer_id == customer_id)
    customer_memory :=
      db.customer_memory.filter fun m => !(m.customer_id == customer_id)
    customer_preferences :=
      db.customer_preferences.filter fun p => !(p.customer_id == customer_id)
    sessions := db.sessions.map fun s =>
      if s.customer_id == some customer_id then { s with customer_id := none }
      else s }

/-! ### Repository layer (app/repositories/*_repo.py)

Each function returns the list of statements it executed together with
its result, mirroring the Python bodies, which execute their statement
unconditionally (no input validation of any kind). -/

/-- Embedding of `face_repo.search_face_nearest`: stringifies the vector
and executes `SQL_FACE_NEAREST_NEIGHBOR` — no dimension check. -/
def search_face_nearest (dist : Vec → Vec → Rat) (db : DB)
    (embedding : Vec) (limit : Nat) :
    List QueryTag × List FaceSearchRow :=
  ([QueryTag.faceNearestNeighbor],
   SQL_FACE_NEAREST_NEIGHBOR dist db embedding limit)

/-- Embedding of `memory_repo.search_memory_nearest`: executes
`SQL_MEMORY_NEAREST_NEIGHBOR` — no dimension check. -/
def search_memory_nearest (dist : Vec → Vec → Rat) (db : DB)
    (customer_id : String) (embedding : Vec) (limit : Nat) :
    List QueryTag × List MemorySearchRow :=
  ([QueryTag.memoryNearestNeighbor],
   SQL_MEMORY_NEAREST_NEIGHBOR dist db customer_id embedding limit)

/-- Embedding of `memory_repo.search_memory_nearest_global`. -/
def search_memory_nearest_global (dist : Vec → Vec → Rat) (db : DB)
    (embedding : Vec) (limit : Nat) :
    List QueryTag × List MemorySearchRow :=
  ([QueryTag.memoryNearestNeighborGlobal],
   SQL_MEMORY_NEAREST_NEIGHBOR_GLOBAL dist db embedding limit)

/-- Aggregate returned by `customer_repo.get_customer_context` when the
customer exists. -/
structure CustomerContext where
  profile : Customer
  preferences : List CustomerPreference
  recent_sessions : List Session
  deriving Repr, DecidableEq

/-- Embedding of `customer_repo.get_customer_context`: executes
`SQL_CUSTOMER_CONTEXT` once and returns `none` exactly when the fetched
row's profile column is NULL. -/
def get_customer_context (db : DB) (customer_id : String)
    (sessions_limit : Nat) : List QueryTag × Option CustomerContext :=
  let row := SQL_CUSTOMER_CONTEXT db customer_id sessions_limit
  ([QueryTag.customerContext],
   match row.1 with
   | none => none
   | some c => some { profile := c
                      preferences := row.2.1
                      recent_sessions := row.2.2 })

/-- Embedding of `opt_out_repo.opt_out_customer`: executes
`SQL_OPT_OUT_NULL_SESSIONS` then `SQL_OPT_OUT_DELETE_CUSTOMER` on the
same session; the caller supplies the transaction. -/
def opt_out_customer (db : DB) (customer_id : String) :
    List QueryTag × DB :=
  ([QueryTag.optOutNullSessions, QueryTag.optOutDeleteCustomer],
   SQL_OPT_OUT_DELETE_CUSTOMER (SQL_OPT_OUT_NULL_SESSIONS db customer_id)
     customer_id)

/-! ### Transaction wrapper (app/db/session.py, `get_db`)

The context manager yields a session, commits if the body returned
normally, rolls back and re-raises if the body raised, and closes the
session in a `finally` block.  A body is a function from the visible
database state to either a new (uncommitted) state with a value, or an
exception.  The environment's commit may itself fail (connectivity loss
etc.), modelled by the `commitOk` flag; a failed commit follows the same
`except` path as a body exception. -/

/-- Outcome of running the `with get_db() as db:` body. -/
inductive BodyOutcome (α : Type) where
  | ok (db : DB) (value : α)
  | exn (msg : String)

/-- Observable trace of one `get_db` scope. -/
structure GetDbResult (α : Type) where
  /-- The database state visible to any subsequent read. -/
  db : DB
  /-- Returned value, or the re-raised exception. -/
  value : Except String α
  committed : Bool
  rolledBack : Bool
  closed : Bool

/-- Embedding of `get_db`: `try: yield; commit / except: rollback; raise
/ finally: close`. -/
def get_db (db0 : DB) (body : DB → BodyOutcome α) (commitOk : Bool) :
    GetDbResult α :=
  match body db0 with
  | BodyOutcome.exn e =>
      { db := db0, value := Except.error e
        committed := false, rolledBack := true, closed := true }
  | BodyOutcome.ok db1 a =>
      if commitOk then
        { db := db1, value := Except.ok a
          committed := true, rolledBack := false, closed := true }
      else
        { db := db0, value := Except.error "commit failed"
          committed := false, rolledBack := true, closed := true }

/-- Embedding of `consent_service.customer_opt_out`: runs
`opt_out_customer` inside a single `get_db` scope, so both statements
are part of one transaction. -/
def customer_opt_out (db : DB) (customer_id : String) (commitOk : Bool) :
    GetDbResult Unit :=
  get_db db (fun d => BodyOutcome.ok (opt_out_customer d customer_id).2 ())
    commitOk

/-! ### Router layer (app/routers/search.py) -/

/-- Python truthiness of the optional `customer_id` query parameter:
`None` and the empty string are falsy. -/
def pyTruthy : Option String → Bool
  | none => false
  | some s => !(s == "")

/-- Embedding of the `/search/memory` handler `memory_nearest`:
`if customer_id:` selects scoped search by truthiness, otherwise the
global search runs. -/
def memory_nearest (dist : Vec → Vec → Rat) (db : DB) (embedding : Vec)
    (customer_id : Option String) (limit : Nat) :
    List QueryTag × List MemorySearchRow :=
  match customer_id with
  | some cid =>
      if pyTruthy (some cid) then search_memory_nearest dist db cid embedding limit
      else search_memory_nearest_global dist db embedding limit
  | none => search_memory_nearest_global dist db embedding limit

/-! ### Characterization of the face-search result rows -/

/-- Every row of `SQL_FACE_NEAREST_NEIGHBOR` arises from an embedding
joined to a stored customer whose consent flag is true. -/
theorem mem_SQL_FACE_NEAREST_NEIGHBOR {dist : Vec → Vec → Rat} {db : DB}
    {q : Vec} {k : Nat} {r : FaceSearchRow}
    (hr : r ∈ SQL_FACE_NEAREST_NEIGHBOR dist db q k) :
    ∃ f ∈ db.customer_face_embeddings, ∃ c ∈ db.customers,
      c.id = f.customer_id ∧ c.consent_for_biometrics = true ∧
      r.customer_id = c.id := by
  have hr1 : r ∈ sortLe distLe
      (((db.customer_face_embeddings.flatMap fun f =>
          (db.customers.filter fun c => c.id == f.customer_id).map fun c =>
            (f, c)).filter fun fc => fc.2.consent_for_biometrics).map fun fc =>
        ({ customer_id := fc.2.id
           external_id := fc.2.external_id
           display_name := fc.2.display_name
           embedding_id := fc.1.id
           distance := dist fc.1.embedding q } : FaceSearchRow)) := by
    simpa [SQL_FACE_NEAREST_NEIGHBOR] using
      (List.take_sublist k _).subset hr
  have hr2 := (mem_sortLe _ _ _).mp hr1
  rcases List.mem_map.mp hr2 with ⟨fc, hfc, hrow⟩
  rcases List.mem_filter.mp hfc with ⟨hjoin, hcons⟩
  rcases List.mem_flatMap.mp hjoin with ⟨f, hf, hpair⟩
  rcases List.mem_map.mp hpair with ⟨c, hc, hpc⟩
  rcases List.mem_filter.mp hc with ⟨hcmem, hcid⟩
  refine ⟨f, hf, c, hcmem, by simpa using hcid, ?_, ?_⟩
  · have : fc.2 = c := by rw [← hpc]
    rw [← this]; exact hcons
  · rw [← hrow]
    have : fc.2 = c := by rw [← hpc]
    simp [this]

/-- Pushing the consent filter of the face query through the join:
restricting the `customers` table to consenting customers before the
query does not change the joined-and-gated row set. -/
theorem consent_filter_push (f : CustomerFaceEmbedding) (cs : List Customer) :
    ((cs.filter fun c => c.id == f.customer_id).map fun c => (f, c)).filter
        (fun fc => fc.2.consent_for_biometrics)
      = (((cs.filter fun c => c.consent_for_biometrics).filter
            fun c => c.id == f.customer_id).map fun c => (f, c)).filter
          (fun fc => fc.2.consent_for_biometrics) := by
  induction cs with
  | nil => rfl
  | cons c t ih =>
    by_cases h1 : (c.id == f.customer_id) = true <;>
      by_cases h2 : c.consent_for_biometrics = true <;>
        simp [List.filter_cons, h1, h2, ih]

/-- The face search computes the same rows over the store with
non-consenting customers removed: the consent filter acts inside the
query, before ranking and limiting. -/
theorem SQL_FACE_NEAREST_NEIGHBOR_restrict (dist : Vec → Vec → Rat)
    (db : DB) (q : Vec) (k : Nat) :
    SQL_FACE_NEAREST_NEIGHBOR dist db q k =
      SQL_FACE_NEAREST_NEIGHBOR dist
        { db with customers := db.customers.filter (fun c => c.consent_for_biometrics) } q k := by
  have hg : (fun f : CustomerFaceEmbedding =>
        ((db.customers.filter fun c => c.id == f.customer_id).map
            (fun c => (f, c))).filter (fun fc => fc.2.consent_for_biometrics))
      = (fun f : CustomerFaceEmbedding =>
        (((db.customers.filter (fun c => c.consent_for_biometrics)).filter
            (fun c => c.id == f.customer_id)).map
              (fun c => (f, c))).filter (fun fc => fc.2.consent_for_biometrics)) :=
    funext fun f => consent_filter_push f db.customers
  simp only [SQL_FACE_NEAREST_NEIGHBOR, List.filter_flatMap]
  rw [hg]

/-! ### Witness fixtures: a tiny concrete store -/

/-- Constant metric used to instantiate metric-parametric theorems. -/
def distZero : Vec → Vec → Rat := fun _ _ => 0

/-- Consenting customer fixture. -/
def custYes : Customer :=
  { id := "c-yes", external_id := "e1", display_name := "Ada"
    notes := none, consent_for_biometrics := true, created_at := 1 }

/-- Non-consenting customer fixture. -/
def custNo : Customer :=
  { id := "c-no", external_id := "e2", display_name := "Bob"
    notes := none, consent_for_biometrics := false, created_at := 2 }

/-- Face embedding owned by the consenting customer. -/
def faceYes : CustomerFaceEmbedding :=
  { id := "f-yes", customer_id := "c-yes", source_session_id := none
    model_name := "m", idempotency_hash := none, embedding := [1]
    created_at := 3 }

/-- Face embedding owned by the non-consenting customer. -/
def faceNo : CustomerFaceEmbedding :=
  { id := "f-no", customer_id := "c-no", source_session_id := none
    model_name := "m", idempotency_hash := none, embedding := [2]
    created_at := 4 }

/-- Two-customer fixture store. -/
def dbW : DB :=
  { customers := [custYes, custNo]
    employees := []
    sessions := []
    transcript_chunks := []
    customer_face_embeddings := [faceYes, faceNo]
    customer_memory := []
    customer_preferences := [] }

/-- C1: for every stored state, query vector and limit, face search
never returns a customer whose consent flag is false; every returned row
belongs to a consenting stored customer; and the consent filter acts
inside the query: the result is unchanged when non-consenting customers
are removed from the store before the query, so excluded customers never
occupy a top-k slot. -/
theorem C1_face_search_consent_gate
    (dist : Vec → Vec → Rat) (db : DB) (q : Vec) (k : Nat)
    (hnd : (db.customers.map Customer.id).Nodup) :
    (∀ r ∈ (search_face_nearest dist db q k).2,
        ∃ c ∈ db.customers, c.id = r.customer_id ∧
          c.consent_for_biometrics = true)
    ∧ (∀ c ∈ db.customers, c.consent_for_biometrics = false →
        ∀ r ∈ (search_face_nearest dist db q k).2, r.customer_id ≠ c.id)
    ∧ (search_face_nearest dist db q k).2 =
        (search_face_nearest dist
          { db with customers := db.customers.filter (fun c => c.consent_for_biometrics) } q k).2 := by
  refine ⟨?_, ?_, ?_⟩
  · intro r hr
    rcases mem_SQL_FACE_NEAREST_NEIGHBOR hr with
      ⟨f, hf, c, hc, hid, hcons, hrc⟩
    exact ⟨c, hc, hrc.symm, hcons⟩
  · intro c hc hcfalse r hr hrc
    rcases mem_SQL_FACE_NEAREST_NEIGHBOR hr with
      ⟨f, hf, c', hc', hid', hcons', hrc'⟩
    have hcc : c' = c := List.inj_on_of_nodup_map hnd hc' hc (by
      rw [← hrc', hrc])
    rw [hcc] at hcons'
    rw [hcons'] at hcfalse
    exact Bool.noConfusion hcfalse
  · exact SQL_FACE_NEAREST_NEIGHBOR_restrict dist db q k

/-- Witness: C1 instantiated on the two-customer fixture store, whose
customer ids are distinct. -/
theorem C1_face_search_consent_gate_witness :
    ((dbW.customers.map Customer.id).Nodup)
    ∧ ((∀ r ∈ (search_face_nearest distZero dbW [1] 5).2,
          ∃ c ∈ dbW.customers, c.id = r.customer_id ∧
            c.consent_for_biometrics = true)
       ∧ (∀ c ∈ dbW.customers, c.consent_for_biometrics = false →
           ∀ r ∈ (search_face_nearest distZero dbW [1] 5).2,
             r.customer_id ≠ c.id)
       ∧ (search_face_nearest distZero dbW [1] 5).2 =
           (search_face_nearest distZero
             { dbW with customers := dbW.customers.filter (fun c => c.consent_for_biometrics) } [1] 5).2) :=
  ⟨by decide, C1_face_search_consent_gate distZero dbW [1] 5 (by decide)⟩

/-! ### Memory search -/

theorem memDistLe_total (a b : MemorySearchRow) :
    memDistLe a b = true ∨ memDistLe b a = true := by
  simp only [memDistLe, decide_eq_true_eq]
  exact le_total a.distance b.distance

theorem memDistLe_trans (a b c : MemorySearchRow)
    (h1 : memDistLe a b = true) (h2 : memDistLe b c = true) :
    memDistLe a c = true := by
  simp only [memDistLe, decide_eq_true_eq] at h1 h2 ⊢
  exact le_trans h1 h2

/-- C7: scoped memory search returns at most `k` rows, every returned
row is owned by the requested customer (hence none by any other), the
rows are ordered by ascending distance, and the query applies no
biometric-consent filter: its result does not depend on the `customers`
table at all, so memories are returned even when the customer's consent
flag is false. -/
theorem C7_memory_search_scoped
    (dist : Vec → Vec → Rat) (db : DB) (cid : String) (q : Vec) (k : Nat) :
    (search_memory_nearest dist db cid q k).2.length ≤ k
    ∧ (∀ r ∈ (search_memory_nearest dist db cid q k).2, r.customer_id = cid)
    ∧ (search_memory_nearest dist db cid q k).2.Pairwise
        (fun a b => a.distance ≤ b.distance)
    ∧ (∀ cs : List Customer,
        search_memory_nearest dist db cid q k =
          search_memory_nearest dist { db with customers := cs } cid q k) := by
  refine ⟨?_, ?_, ?_, ?_⟩
  · simp only [search_memory_nearest, SQL_MEMORY_NEAREST_NEIGHBOR]
    simp [List.length_take]
  · intro r hr
    simp only [search_memory_nearest, SQL_MEMORY_NEAREST_NEIGHBOR] at hr
    have hr1 := (mem_sortLe _ _ _).mp ((List.take_sublist k _).subset hr)
    rcases List.mem_map.mp hr1 with ⟨m, hm, hrow⟩
    rcases List.mem_filter.mp hm with ⟨hmem, hmid⟩
    rw [← hrow]
    simpa [memoryRowOf] using hmid
  · simp only [search_memory_nearest, SQL_MEMORY_NEAREST_NEIGHBOR]
    have hp := pairwise_sortLe memDistLe memDistLe_total memDistLe_trans
      ((db.customer_memory.filter fun m => m.customer_id == cid).map
        (memoryRowOf dist q))
    have hp2 := hp.sublist (List.take_sublist k _)
    exact hp2.imp fun h => by simpa [memDistLe] using h
  · intro cs
    rfl

/-! ### Dimension validation at the search boundary -/

/-- C4 counterexample: a query vector of length 3 (≠ 512) is not
rejected by face search — the repository executes the nearest-neighbor
statement and returns normally — and likewise a vector of length 1
(≠ 1536) for memory search.  No validation error precedes the query,
because no dimension check exists anywhere on these paths. -/
theorem C4_counterexample :
    ([0, 0, 0] : Vec).length ≠ face_embedding_dim
    ∧ (search_face_nearest distZero dbW [0, 0, 0] 5).1 =
        [QueryTag.faceNearestNeighbor]
    ∧ ([0] : Vec).length ≠ text_embedding_dim
    ∧ (search_memory_nearest distZero dbW "c-yes" [0] 5).1 =
        [QueryTag.memoryNearestNeighbor] := by
  refine ⟨by decide, rfl, by decide, rfl⟩

/-- C4 amended: face and memory search perform no dimension validation
at all — for every store, query vector of any length, and limit, each
repository call executes its storage statement exactly once and returns
normally, never raising a validation error first. -/
theorem C4_no_dimension_validation
    (dist : Vec → Vec → Rat) (db : DB) (emb : Vec) (cid : String) (k : Nat) :
    (search_face_nearest dist db emb k).1 = [QueryTag.faceNearestNeighbor]
    ∧ (search_memory_nearest dist db cid emb k).1 =
        [QueryTag.memoryNearestNeighbor] :=
  ⟨rfl, rfl⟩

/-! ### Opt-out: atomicity, erasure, idempotence, frame -/

/-- After the two opt-out statements, no session references the erased
customer. -/
theorem opt_out_sessions_detached (db : DB) (cid : String) :
    ((opt_out_customer db cid).2.sessions.all
      fun s => !(s.customer_id == some cid)) = true := by
  simp only [opt_out_customer, SQL_OPT_OUT_DELETE_CUSTOMER,
    SQL_OPT_OUT_NULL_SESSIONS, List.map_map]
  rw [List.all_eq_true]
  intro s hs
  rcases List.mem_map.mp hs with ⟨s0, _, rfl⟩
  by_cases h : s0.customer_id == some cid
  · simp [Function.comp, h]
  · simp [Function.comp, h]

/-- After the two opt-out statements, the customer row is gone. -/
theorem opt_out_customers_gone (db : DB) (cid : String) :
    ((opt_out_customer db cid).2.customers.all
      fun c => !(c.id == cid)) = true := by
  simp only [opt_out_customer, SQL_OPT_OUT_DELETE_CUSTOMER,
    SQL_OPT_OUT_NULL_SESSIONS]
  rw [List.all_eq_true]
  intro c hc
  exact (List.mem_filter.mp hc).2

/-- C2: the opt-out operation runs its session-detach and
customer-delete statements inside one `get_db` transaction; whatever
the commit outcome, the state observable by a subsequent read is either
the full two-step effect (operation reported successful, every session
detached and the customer row gone) or exactly the initial state
(operation reported failed); no intermediate state is observable. -/
theorem C2_opt_out_atomic (db : DB) (cid : String) (commitOk : Bool) :
    ((customer_opt_out db cid commitOk).committed = true
      ∧ (customer_opt_out db cid commitOk).value = Except.ok ()
      ∧ (customer_opt_out db cid commitOk).db = (opt_out_customer db cid).2
      ∧ ((customer_opt_out db cid commitOk).db.sessions.all
          fun s => !(s.customer_id == some cid)) = true
      ∧ ((customer_opt_out db cid commitOk).db.customers.all
          fun c => !(c.id == cid)) = true)
    ∨ ((customer_opt_out db cid commitOk).committed = false
      ∧ (customer_opt_out db cid commitOk).rolledBack = true
      ∧ (∃ e, (customer_opt_out db cid commitOk).value = Except.error e)
      ∧ (customer_opt_out db cid commitOk).db = db) := by
  cases commitOk with
  | true =>
    left
    refine ⟨rfl, rfl, rfl, ?_, ?_⟩
    · exact opt_out_sessions_detached db cid
    · exact opt_out_customers_gone db cid
  | false =>
    right
    exact ⟨rfl, rfl, ⟨"commit failed", rfl⟩, rfl⟩

/-- C3: after a successful opt-out, the context fetch reports the
customer as absent, and no FaceEmbedding, CustomerMemory or
CustomerPreference row owned by the erased customer remains. -/
theorem C3_opt_out_complete_erasure (db : DB) (cid : String) (n : Nat) :
    (get_customer_context (customer_opt_out db cid true).db cid n).2 = none
    ∧ ((customer_opt_out db cid true).db.customer_face_embeddings.filter
        fun f => f.customer_id == cid).length = 0
    ∧ ((customer_opt_out db cid true).db.customer_memory.filter
        fun m => m.customer_id == cid).length = 0
    ∧ ((customer_opt_out db cid true).db.customer_preferences.filter
        fun p => p.customer_id == cid).length = 0 := by
  refine ⟨?_, ?_, ?_, ?_⟩
  · have hfind : ((customer_opt_out db cid true).db.customers.find?
        fun c => c.id == cid) = none := by
      rw [List.find?_eq_none]
      intro c hc
      have := (List.mem_filter.mp hc).2
      simpa using this
    simp only [get_customer_context, SQL_CUSTOMER_CONTEXT]
    rw [hfind]
  · simp [customer_opt_out, get_db, opt_out_customer,
      SQL_OPT_OUT_DELETE_CUSTOMER, SQL_OPT_OUT_NULL_SESSIONS,
      List.filter_filter]
  · simp [customer_opt_out, get_db, opt_out_customer,
      SQL_OPT_OUT_DELETE_CUSTOMER, SQL_OPT_OUT_NULL_SESSIONS,
      List.filter_filter]
  · simp [customer_opt_out, get_db, opt_out_customer,
      SQL_OPT_OUT_DELETE_CUSTOMER, SQL_OPT_OUT_NULL_SESSIONS,
      List.filter_filter]

/-- Detaching a session from a customer is pointwise idempotent. -/
theorem detach_comp_self (cid : String) :
    ((fun s : Session =>
        if s.customer_id == some cid then { s with customer_id := none }
        else s) ∘
      (fun s : Session =>
        if s.customer_id == some cid then { s with customer_id := none }
        else s))
    = (fun s : Session =>
        if s.customer_id == some cid then { s with customer_id := none }
        else s) := by
  funext s
  by_cases h : s.customer_id == some cid <;> simp [Function.comp, h]

/-- When the environment commits, the state visible after the opt-out
service call is the two-statement repository effect. -/
theorem customer_opt_out_true_db (db : DB) (cid : String) :
    (customer_opt_out db cid true).db = (opt_out_customer db cid).2 := rfl

/-- C5: opt-out is idempotent — invoking it again on an already-erased
customer id reports success (no error) and leaves the store in exactly
the end state of the first invocation. -/
theorem C5_opt_out_idempotent (db : DB) (cid : String) :
    (customer_opt_out (customer_opt_out db cid true).db cid true).value =
      Except.ok ()
    ∧ (customer_opt_out (customer_opt_out db cid true).db cid true).db =
        (customer_opt_out db cid true).db := by
  constructor
  · rfl
  · simp only [customer_opt_out_true_db]
    simp only [opt_out_customer,
      SQL_OPT_OUT_DELETE_CUSTOMER, SQL_OPT_OUT_NULL_SESSIONS,
      List.map_map, List.filter_filter, Bool.and_self, detach_comp_self]

/-- C6: opt-out preserves every Session row (only its customer reference
is cleared), leaves all transcript chunks untouched, deletes or changes
no Employee row, and removes exactly the customer row and the embedding,
memory and preference rows owned by the erased customer. -/
theorem C6_opt_out_frame (db : DB) (cid : String) :
    (customer_opt_out db cid true).db.employees = db.employees
    ∧ (customer_opt_out db cid true).db.transcript_chunks =
        db.transcript_chunks
    ∧ (customer_opt_out db cid true).db.sessions =
        db.sessions.map (fun s =>
          if s.customer_id == some cid then { s with customer_id := none }
          else s)
    ∧ (customer_opt_out db cid true).db.customers =
        db.customers.filter (fun c => !(c.id == cid))
    ∧ (customer_opt_out db cid true).db.customer_face_embeddings =
        db.customer_face_embeddings.filter (fun f => !(f.customer_id == cid))
    ∧ (customer_opt_out db cid true).db.customer_memory =
        db.customer_memory.filter (fun m => !(m.customer_id == cid))
    ∧ (customer_opt_out db cid true).db.customer_preferences =
        db.customer_preferences.filter (fun p => !(p.customer_id == cid)) := by
  refine ⟨rfl, rfl, ?_, rfl, rfl, rfl, rfl⟩
  rw [customer_opt_out_true_db]
  simp only [opt_out_customer,
    SQL_OPT_OUT_DELETE_CUSTOMER, SQL_OPT_OUT_NULL_SESSIONS,
    List.map_map, detach_comp_self]

/-! ### Context aggregation -/

theorem createdDescLe_total (a b : Session) :
    createdDescLe a b = true ∨ createdDescLe b a = true := by
  simp only [createdDescLe, decide_eq_true_eq]
  exact le_total b.created_at a.created_at

theorem createdDescLe_trans (a b c : Session)
    (h1 : createdDescLe a b = true) (h2 : createdDescLe b c = true) :
    createdDescLe a c = true := by
  simp only [createdDescLe, decide_eq_true_eq] at h1 h2 ⊢
  exact le_trans h2 h1

/-- C8: the context fetch executes a single query; it returns the
absent result exactly when no customer with the requested id is stored;
otherwise the aggregate holds that customer's full profile row
(consent flag included), the full list of that customer's preferences,
and at most `n` stored sessions referencing that customer, ordered by
descending creation time. -/
theorem C8_customer_context (db : DB) (cid : String) (n : Nat) :
    (get_customer_context db cid n).1.length = 1
    ∧ ((get_customer_context db cid n).2 = none ↔
        ∀ c ∈ db.customers, c.id ≠ cid)
    ∧ (∀ ctx, (get_customer_context db cid n).2 = some ctx →
        ctx.profile ∈ db.customers ∧ ctx.profile.id = cid
        ∧ ctx.preferences =
            db.customer_preferences.filter (fun p => p.customer_id == cid)
        ∧ ctx.recent_sessions.length ≤ n
        ∧ (∀ s ∈ ctx.recent_sessions,
            s ∈ db.sessions ∧ s.customer_id = some cid)
        ∧ ctx.recent_sessions.Pairwise
            (fun a b => b.created_at ≤ a.created_at)) := by
  refine ⟨rfl, ?_, ?_⟩
  · have hiff : ((get_customer_context db cid n).2 = none) ↔
        (db.customers.find? fun c => c.id == cid) = none := by
      simp only [get_customer_context, SQL_CUSTOMER_CONTEXT]
      cases h : db.customers.find? fun c => c.id == cid <;> simp [h]
    rw [hiff, List.find?_eq_none]
    constructor
    · intro h c hc
      have := h c hc
      simpa using this
    · intro h c hc
      simpa using h c hc
  · intro ctx hctx
    cases hfind : db.customers.find? (fun c => c.id == cid) with
    | none =>
      simp only [get_customer_context, SQL_CUSTOMER_CONTEXT, hfind] at hctx
      exact Option.noConfusion hctx
    | some c =>
      simp only [get_customer_context, SQL_CUSTOMER_CONTEXT, hfind] at hctx
      have hc1 : c ∈ db.customers := List.mem_of_find?_eq_some hfind
      have hc2 : c.id = cid := by
        have := List.find?_some hfind
        simpa using this
      obtain rfl := Option.some.inj hctx
      refine ⟨hc1, hc2, rfl, ?_, ?_, ?_⟩
      · simp [List.length_take]
      · intro s hs
        have hs1 := (mem_sortLe _ _ _).mp ((List.take_sublist n _).subset hs)
        have hs2 := List.mem_filter.mp hs1
        exact ⟨hs2.1, by simpa using hs2.2⟩
      · have hp := pairwise_sortLe createdDescLe createdDescLe_total
          createdDescLe_trans
          (db.sessions.filter fun s => s.customer_id == some cid)
        have hp2 := hp.sublist (List.take_sublist n _)
        exact hp2.imp fun h => by simpa [createdDescLe] using h

/-! ### Transaction wrapper behavior -/

/-- C9: every `get_db` scope closes the session on every exit path;
it commits exactly when the body returned normally and the commit
succeeds; on a body exception it rolls back, re-raises that very
exception, and leaves the visible state untouched; and whenever it did
not commit, the visible state is the initial one and a failure is
reported, never success. -/
theorem C9_get_db_commit_rollback_close {α : Type} (db0 : DB)
    (body : DB → BodyOutcome α) (commitOk : Bool) :
    (get_db db0 body commitOk).closed = true
    ∧ ((get_db db0 body commitOk).committed = true ↔
        (∃ db1 a, body db0 = BodyOutcome.ok db1 a) ∧ commitOk = true)
    ∧ (∀ e, body db0 = BodyOutcome.exn e →
        (get_db db0 body commitOk).value = Except.error e
        ∧ (get_db db0 body commitOk).db = db0
        ∧ (get_db db0 body commitOk).rolledBack = true)
    ∧ (∀ db1 a, body db0 = BodyOutcome.ok db1 a → commitOk = true →
        (get_db db0 body commitOk).db = db1
        ∧ (get_db db0 body commitOk).value = Except.ok a)
    ∧ ((get_db db0 body commitOk).committed = false →
        (get_db db0 body commitOk).db = db0
        ∧ (get_db db0 body commitOk).rolledBack = true
        ∧ ∃ e, (get_db db0 body commitOk).value = Except.error e) := by
  cases hb : body db0 with
  | ok db1 a => cases commitOk <;> simp [get_db, hb]
  | exn e => cases commitOk <;> simp [get_db, hb]

/-! ### Router mode selection for memory search -/

/-- C10: the `/search/memory` handler selects its mode by Python
truthiness of `customer_id`, not by presence: the empty string routes to
the global search exactly like an absent parameter, and every non-empty
`customer_id` routes to the search scoped to that customer. -/
theorem C10_memory_mode_truthiness (dist : Vec → Vec → Rat) (db : DB)
    (emb : Vec) (k : Nat) :
    memory_nearest dist db emb (some "") k =
      search_memory_nearest_global dist db emb k
    ∧ memory_nearest dist db emb none k =
        search_memory_nearest_global dist db emb k
    ∧ (∀ cid : String, cid ≠ "" →
        memory_nearest dist db emb (some cid) k =
          search_memory_nearest dist db cid emb k) := by
  refine ⟨rfl, rfl, ?_⟩
  intro cid hcid
  simp [memory_nearest, pyTruthy, hcid]

end App
